import Mathlib

/-!
Verification development for the CATCH-THE-FALLING-OBJECT game core.

The simulation loop lives in `src/components/GameWorld.tsx` (the `loop`
callback inside the main effect) and the vision-input estimator in
`src/components/VisionTracker.tsx` (`kalmanX` and `processFrame`).
Numbers are modelled as exact rationals (`ℚ`); JavaScript `Math.floor`
becomes `Int.floor`; the two `Math.random()`-driven spawn decisions are
passed in explicitly as an oracle record, and the wall-clock reads
(`requestAnimationFrame` timestamp and `Date.now()`) are explicit tick
inputs, so every definition is a pure, executable function of its inputs.
-/

/-- Object category, from `ObjectType` in `types.ts` (referenced throughout
`GameWorld.tsx`): collectible (`GOOD`) or hazardous (`BAD`). -/
inductive ObjectType where
  | GOOD
  | BAD
  deriving DecidableEq

/-- A falling object, from the records pushed in `GameWorld.tsx` lines
110-118.  The cosmetic fields `id` and `variant` play no role in the
simulation and are omitted. -/
structure GameObject where
  x : ℚ
  y : ℚ
  radius : ℚ
  speed : ℚ
  type : ObjectType
  deriving DecidableEq

/-- One difficulty tier of `DIFFICULTY_SETTINGS` (`GameWorld.tsx` lines
26-30). -/
structure Settings where
  initialLives : ℚ
  growth : ℚ
  hazardPenalty : ℚ
  spawnRateBase : ℚ
  deriving DecidableEq

/-- `DIFFICULTY_SETTINGS[GameDifficulty.EASY]`. -/
def EASY : Settings := ⟨5, 3/100, 1, 1200⟩

/-- `DIFFICULTY_SETTINGS[GameDifficulty.MEDIUM]`. -/
def MEDIUM : Settings := ⟨3, 1/10, 1, 1000⟩

/-- `DIFFICULTY_SETTINGS[GameDifficulty.HARD]`. -/
def HARD : Settings := ⟨1, 1/4, 1, 700⟩

/-- The game themes of `THEME_DATA` (`GameWorld.tsx` lines 17-24); only the
`gravityMult` field matters to the simulation. -/
inductive GameTheme where
  | COSMIC
  | NEON_CITY
  | NATURE
  | URBAN_RAIN
  | MIND_LAB
  | RETRO
  deriving DecidableEq

/-- The `gravityMult` entry of each theme in `THEME_DATA`. -/
def gravityMult : GameTheme → ℚ
  | .COSMIC => 9/10
  | .NEON_CITY => 11/10
  | .NATURE => 7/10
  | .URBAN_RAIN => 13/10
  | .MIND_LAB => 1
  | .RETRO => 6/5

/-- The mutable engine record of `GameWorld.tsx` lines 39-50.  The
`isHandDetected` flag is kept (it is engine state) although it only affects
rendering. -/
structure Engine where
  score : ℚ
  lives : ℚ
  combo : ℚ
  objects : List GameObject
  handX : ℚ
  isHandDetected : Bool
  difficulty : ℚ
  spawnTimer : ℚ
  lastTime : ℚ
  startTime : ℚ
  deriving DecidableEq

/-- Initial engine state (`GameWorld.tsx` lines 39-50): score 0, lives from
the difficulty tier, combo 0, no objects, handX 0.5, difficulty 1,
spawnTimer 0, lastTime 0 and `startTime = Date.now()`. -/
def initEngine (settings : Settings) (start : ℚ) : Engine :=
  { score := 0
    lives := settings.initialLives
    combo := 0
    objects := []
    handX := 1/2
    isHandDetected := true
    difficulty := 1
    spawnTimer := 0
    lastTime := 0
    startTime := start }

/-- The point-in-paddle test of `GameWorld.tsx` line 126:
`obj.x > px && obj.x < px + pw && obj.y > py && obj.y < py + ph`
with `pw = 140` and `ph = 24` (line 122). -/
def hitTest (px py : ℚ) (obj : GameObject) : Bool :=
  decide (obj.x > px ∧ obj.x < px + 140 ∧ obj.y > py ∧ obj.y < py + 24)

/-- The three engine fields mutated inside the collision `filter` callback
(`GameWorld.tsx` lines 125-140). -/
structure HitAcc where
  score : ℚ
  lives : ℚ
  combo : ℚ
  deriving DecidableEq

/-- Effect of one hit on score/lives/combo (`GameWorld.tsx` lines 128-136):
a GOOD hit adds `5 + Math.floor(combo / 4)` to the score and increments the
combo; a BAD hit subtracts `hazardPenalty` from lives and resets the combo. -/
def applyHit (settings : Settings) (acc : HitAcc) (obj : GameObject) : HitAcc :=
  if obj.type = ObjectType.GOOD then
    { acc with score := acc.score + 5 + ((⌊acc.combo / 4⌋ : ℤ) : ℚ),
               combo := acc.combo + 1 }
  else
    { acc with lives := acc.lives - settings.hazardPenalty, combo := 0 }

/-- The collision pass `e.objects = e.objects.filter(...)` of
`GameWorld.tsx` lines 125-140: JavaScript `filter` visits objects in order,
and the callback both decides survival and mutates score/lives/combo, so it
is modelled as a single ordered pass threading the accumulator. -/
def resolveHits (settings : Settings) (px py : ℚ) :
    HitAcc → List GameObject → HitAcc × List GameObject
  | acc, [] => (acc, [])
  | acc, obj :: rest =>
    if hitTest px py obj then
      resolveHits settings px py (applyHit settings acc obj) rest
    else
      let r := resolveHits settings px py acc rest
      (r.1, obj :: r.2)

/-- The three `Math.random()` draws of one spawn (`GameWorld.tsx` lines
109-117), passed in as an oracle: the hazard roll compared against 0.22,
and the rolls for the horizontal position and the speed.  The uniform
variant draw is cosmetic and omitted. -/
structure SpawnRand where
  badRoll : ℚ
  xRoll : ℚ
  speedRoll : ℚ
  deriving DecidableEq

/-- The object pushed on spawn (`GameWorld.tsx` lines 110-118):
`x = random·700 + 50`, `y = -50`, `radius = 20`, `speed = 4 + random·3`,
BAD iff the hazard roll is below 0.22. -/
def spawnObject (rnd : SpawnRand) : GameObject :=
  { x := rnd.xRoll * 700 + 50
    y := -50
    radius := 20
    speed := 4 + rnd.speedRoll * 3
    type := if rnd.badRoll < 11/50 then ObjectType.BAD else ObjectType.GOOD }

/-- The effective spawn interval of `GameWorld.tsx` line 106:
`Math.max(200, settings.spawnRateBase - (e.score * 3))`. -/
def spawnRate (settings : Settings) (score : ℚ) : ℚ :=
  max 200 (settings.spawnRateBase - score * 3)

/-- One frame callback of `GameWorld.tsx` lines 85-147 (`loop`), up to and
including the termination check; rendering (lines 149-170) touches no
simulation state.  Inputs: the tier settings and theme gravity captured by
the effect, the `isPaused` flag, the `requestAnimationFrame` timestamp
`time`, the `Date.now()` value `now` read by the difficulty update, the
spawn randomness oracle, and the engine record.  Output: the new engine
record, the `onGameOver` event (with its `Math.floor(score)` payload) if
emitted, and whether another frame gets scheduled. -/
def tick (settings : Settings) (grav : ℚ) (isPaused : Bool)
    (time now : ℚ) (rnd : SpawnRand) (e : Engine) : Engine × Option ℤ × Bool :=
  if isPaused then
    (e, none, true)
  else
    let dt := time - e.lastTime
    let e1 : Engine := { e with lastTime := time }
    let step := min dt 32 / (1667 / 100)
    let moved := (e1.objects.map (fun obj =>
      { obj with y := obj.y + obj.speed * step * grav * e1.difficulty })).filter
      (fun obj => obj.y < 650)
    let e2 : Engine := { e1 with objects := moved }
    let e3 : Engine := { e2 with spawnTimer := e2.spawnTimer + dt }
    let e4 : Engine :=
      if spawnRate settings e3.score < e3.spawnTimer then
        { e3 with spawnTimer := 0, objects := e3.objects ++ [spawnObject rnd] }
      else e3
    let px := e4.handX * 800 - 140 / 2
    let py : ℚ := 600 - 110
    let res := resolveHits settings px py ⟨e4.score, e4.lives, e4.combo⟩ e4.objects
    let e5 : Engine := { e4 with score := res.1.score, lives := res.1.lives,
                                 combo := res.1.combo, objects := res.2 }
    let e6 : Engine := { e5 with difficulty :=
      1 + e5.score / 500 + (now - e5.startTime) / 120000 }
    if e6.lives ≤ 0 then (e6, some ⌊e6.score⌋, false) else (e6, none, true)

/-- The motion pass of `GameWorld.tsx` lines 98-102 as a standalone stage:
move every object by `speed · step · gravityMult · difficulty` with
`step = min(dt, 32) / 16.67`, then prune objects with `y ≥ 650`. -/
def motionStage (grav dt : ℚ) (e : Engine) : Engine :=
  let moved := (e.objects.map (fun obj =>
    { obj with y := obj.y + obj.speed * (min dt 32 / (1667 / 100)) * grav
                      * e.difficulty })).filter
    (fun obj => obj.y < 650)
  { e with objects := moved }

/-- The spawn pass of `GameWorld.tsx` lines 104-119 as a standalone stage. -/
def spawnStage (settings : Settings) (dt : ℚ) (rnd : SpawnRand) (e : Engine) :
    Engine :=
  let et : Engine := { e with spawnTimer := e.spawnTimer + dt }
  if spawnRate settings et.score < et.spawnTimer then
    { et with spawnTimer := 0, objects := et.objects ++ [spawnObject rnd] }
  else et

/-- The collision pass of `GameWorld.tsx` lines 121-140 as a standalone
stage: paddle `px = handX·800 - 70`, `py = 490`. -/
def collideStage (settings : Settings) (e : Engine) : Engine :=
  let px := e.handX * 800 - 140 / 2
  let py : ℚ := 600 - 110
  let res := resolveHits settings px py ⟨e.score, e.lives, e.combo⟩ e.objects
  { e with score := res.1.score, lives := res.1.lives, combo := res.1.combo,
           objects := res.2 }

/-- The difficulty update of `GameWorld.tsx` line 142 as a standalone stage:
`difficulty = 1 + score/500 + (Date.now() - startTime)/120000`. -/
def difficultyStage (now : ℚ) (e : Engine) : Engine :=
  { e with difficulty := 1 + e.score / 500 + (now - e.startTime) / 120000 }

/-- The termination check of `GameWorld.tsx` lines 144-147: when
`lives ≤ 0`, emit `onGameOver(Math.floor(score))` and stop scheduling. -/
def terminalCheck (e : Engine) : Engine × Option ℤ × Bool :=
  if e.lives ≤ 0 then (e, some ⌊e.score⌋, false) else (e, none, true)

/-- Modelled from the spec (section 4.6 / claim C3): a tick that runs the
stages in the order the spec asserts — Difficulty Controller first, then
Motion Updater, Spawner, Collision Resolver, and the termination check —
so that the multiplier used by motion is the one computed at the start of
the same tick.  Defined only to be compared against `tick`. -/
def specOrderTick (settings : Settings) (grav : ℚ) (isPaused : Bool)
    (time now : ℚ) (rnd : SpawnRand) (e : Engine) : Engine × Option ℤ × Bool :=
  if isPaused then
    (e, none, true)
  else
    let dt := time - e.lastTime
    terminalCheck (collideStage settings
      (spawnStage settings dt rnd
        (motionStage grav dt
          (difficultyStage now { e with lastTime := time }))))

/-- The estimator record `kalmanX` of `VisionTracker.tsx` lines 18-23:
state `x`, variance `p`, process noise `q = 0.08`, measurement noise
`r = 0.04`. -/
structure Kalman where
  x : ℚ
  p : ℚ
  q : ℚ
  r : ℚ
  deriving DecidableEq

/-- The initial `kalmanX` value (`VisionTracker.tsx` lines 18-23). -/
def kalmanX0 : Kalman := { x := 1/2, p := 1, q := 2/25, r := 1/25 }

/-- One filter update (`VisionTracker.tsx` lines 119-124):
`p += q`; `gain = p/(p+r)`; `x += gain·(z - x)`; `p = (1-gain)·p`.
Returns the new state together with the gain used. -/
def kalmanUpdate (k : Kalman) (z : ℚ) : Kalman × ℚ :=
  let p1 := k.p + k.q
  let gain := p1 / (p1 + k.r)
  ({ k with x := k.x + gain * (z - k.x), p := (1 - gain) * p1 }, gain)

/-- Iterated filter updates against a constant measurement `z`. -/
def kalmanIter (z : ℚ) (k : Kalman) : ℕ → Kalman
  | 0 => k
  | n + 1 => (kalmanUpdate (kalmanIter z k n) z).1

/-- The estimator part of one `processFrame` call (`VisionTracker.tsx`
lines 110-138), as a function of the bright-pixel count and coordinate sum
produced by the pixel scan (lines 89-108, `procCanvas.width = 80`).
If `count > 8`: `raw = (sumX/count)/80`, deadzone remap
`z = clamp((raw - 0.1)/0.8, 0, 1)`, Kalman update, report the new estimate
with `detected = true`.  Otherwise: no update, report the held estimate
with `detected = false`. -/
def processFrame (count : ℕ) (sumX : ℚ) (k : Kalman) : Kalman × ℚ × Bool :=
  if 8 < count then
    let raw := sumX / count / 80
    let z := max 0 (min 1 ((raw - 1/10) / (8/10)))
    let k1 := (kalmanUpdate k z).1
    (k1, k1.x, true)
  else
    (k, k.x, false)

/-- A sequence of `processFrame` calls, collecting each frame's reported
`(estimate, detected)` callback payload in order. -/
def processFrames (k : Kalman) : List (ℕ × ℚ) → Kalman × List (ℚ × Bool)
  | [] => (k, [])
  | f :: rest =>
    let r := processFrame f.1 f.2 k
    let rec' := processFrames r.1 rest
    (rec'.1, (r.2.1, r.2.2) :: rec'.2)

/-- An object with the spawned radius and a typical speed, used to probe the
collision test at chosen coordinates. -/
def probeObject (x y : ℚ) : GameObject :=
  { x := x, y := y, radius := 20, speed := 4, type := ObjectType.GOOD }

/-- A fixed spawn oracle (hazard roll 1, so a spawned object would be GOOD);
used in traces whose spawn condition never fires. -/
def rnd0 : SpawnRand := { badRoll := 1, xRoll := 0, speedRoll := 0 }

/-- A fresh EASY engine whose last running tick happened at t = 100 ms,
about to be paused. -/
def pauseDemoStart : Engine := { initEngine EASY 0 with lastTime := 100 }

/-- A fresh EASY engine holding one object at x = 400 (under the default
paddle position), y = 0. -/
def orderDemoStart : Engine :=
  { initEngine EASY 0 with objects := [⟨400, 0, 20, 4, ObjectType.GOOD⟩] }

/-- An EASY engine at score 500 whose difficulty multiplier, as recomputed
by the previous tick at `now = startTime`, is `1 + 500/500 + 0 = 2`; it
holds one fast object one unit above the paddle band, horizontally aligned
with the default paddle. -/
def tunnelDemoStart : Engine :=
  { initEngine EASY 0 with
      score := 500
      difficulty := 2
      objects := [⟨400, 489, 20, 7, ObjectType.GOOD⟩] }

/-- A stationary hazard sitting inside the paddle's vertical band at a
chosen horizontal position. -/
def badObj (x : ℚ) : GameObject :=
  { x := x, y := 500, radius := 20, speed := 0, type := ObjectType.BAD }

/-- An EASY engine (5 lives, hazard penalty 1) with arbitrary score and
combo and five stationary hazards spaced wider than the paddle, so each of
five tick-by-tick paddle positions intercepts exactly one of them. -/
def fiveBadStart (s c : ℚ) : Engine :=
  { score := s
    lives := 5
    combo := c
    objects := [badObj 100, badObj 260, badObj 420, badObj 580, badObj 740]
    handX := 1/8
    isHandDetected := true
    difficulty := 1
    spawnTimer := 0
    lastTime := 0
    startTime := 0 }

/-- The C9 trace, tick 1: one frame at t = 16.67 ms from `fiveBadStart`,
paddle over the first hazard. -/
def c9r1 (s c : ℚ) : Engine × Option ℤ × Bool :=
  tick EASY 1 false (1667/100) 0 rnd0 (fiveBadStart s c)

/-- The C9 trace, tick 2: the hand moves to cover the second hazard, one
frame at t = 2·16.67 ms. -/
def c9r2 (s c : ℚ) : Engine × Option ℤ × Bool :=
  tick EASY 1 false (1667/50) 0 rnd0 { (c9r1 s c).1 with handX := 13/40 }

/-- The C9 trace, tick 3. -/
def c9r3 (s c : ℚ) : Engine × Option ℤ × Bool :=
  tick EASY 1 false (5001/100) 0 rnd0 { (c9r2 s c).1 with handX := 21/40 }

/-- The C9 trace, tick 4. -/
def c9r4 (s c : ℚ) : Engine × Option ℤ × Bool :=
  tick EASY 1 false (1667/25) 0 rnd0 { (c9r3 s c).1 with handX := 29/40 }

/-- The C9 trace, tick 5: the fifth consecutive BAD hit. -/
def c9r5 (s c : ℚ) : Engine × Option ℤ × Bool :=
  tick EASY 1 false (1667/20) 0 rnd0 { (c9r4 s c).1 with handX := 37/40 }

/-- Engine state reached after tick `k` of the C9 trace: `5 - k` lives,
the first `k` hazards consumed, spawn timer and last-tick time at
`k · 16.67` ms. -/
def c9state (s : ℚ) (k : ℕ) (handX : ℚ) : Engine :=
  { score := s
    lives := 5 - (k : ℚ)
    combo := 0
    objects := (([100, 260, 420, 580, 740] : List ℚ).drop k).map badObj
    handX := handX
    isHandDetected := true
    difficulty := 1 + s / 500
    spawnTimer := (k : ℚ) * (1667/100)
    lastTime := (k : ℚ) * (1667/100)
    startTime := 0 }

/-- C5: a single filtered-mode estimator update from x = 0.5, p = 1.0 with
q = 0.08, r = 0.04 and measurement z = 1.0 gives predicted variance
p + q = 1.08, gain 1.08/1.12 = 27/28 ≈ 0.9643, and new estimate
55/56 ≈ 0.9821. -/
theorem kalman_literal_check :
    kalmanX0.p + kalmanX0.q = 27/25 ∧
    (kalmanUpdate kalmanX0 1).2 = 27/28 ∧
    |(kalmanUpdate kalmanX0 1).2 - 9643/10000| < 1/10000 ∧
    (kalmanUpdate kalmanX0 1).1.x = 55/56 ∧
    |(kalmanUpdate kalmanX0 1).1.x - 9821/10000| < 1/10000 := by
  refine ⟨by norm_num [kalmanX0], ?_, ?_, ?_, ?_⟩ <;>
    simp only [kalmanUpdate, kalmanX0] <;> norm_num [abs_lt]

/-- C2 counterexample: with the paddle at px = 330, py = 490 (its
left/right edges at x = 330/470, bottom/top edges at y = 490/514), an
object exactly on the left edge is not a hit, one exactly on the right
edge is not a hit, and likewise for the bottom and top edges: the test of
`GameWorld.tsx` line 126 is strict on all four bounds, so neither the
claimed convention (inclusive left/bottom, exclusive right/top) nor its
converse holds on either axis. -/
theorem paddle_edge_convention_cex :
    hitTest 330 490 (probeObject 330 500) = false ∧
    hitTest 330 490 (probeObject 470 500) = false ∧
    hitTest 330 490 (probeObject 400 490) = false ∧
    hitTest 330 490 (probeObject 400 514) = false := by
  simp only [hitTest, probeObject, decide_eq_false_iff_not]
  norm_num

/-- C2 amended: the collision test uses one consistent boundary convention
on both axes, namely strict (exclusive) on all four bounds: a position
exactly on any edge of the paddle rectangle never counts as a hit, and a
position strictly inside always does. -/
theorem hit_test_strict_all_bounds (px py : ℚ) (obj : GameObject) :
    ((obj.x = px ∨ obj.x = px + 140 ∨ obj.y = py ∨ obj.y = py + 24) →
      hitTest px py obj = false) ∧
    (px < obj.x → obj.x < px + 140 → py < obj.y → obj.y < py + 24 →
      hitTest px py obj = true) := by
  constructor
  · intro h
    simp only [hitTest, decide_eq_false_iff_not]
    intro ⟨h1, h2, h3, h4⟩
    rcases h with h | h | h | h
    · rw [h] at h1; exact lt_irrefl _ h1
    · rw [h] at h2; exact lt_irrefl _ h2
    · rw [h] at h3; exact lt_irrefl _ h3
    · rw [h] at h4; exact lt_irrefl _ h4
  · intro h1 h2 h3 h4
    simp only [hitTest, decide_eq_true_eq]
    exact ⟨h1, h2, h3, h4⟩

/-- Witness for the C2 amended theorem: on-edge objects are rejected and a
strictly interior object is accepted, at concrete coordinates. -/
theorem hit_test_strict_all_bounds_witness :
    hitTest 330 490 (probeObject 330 500) = false ∧
    hitTest 330 490 (probeObject 400 500) = true :=
  ⟨(hit_test_strict_all_bounds 330 490 (probeObject 330 500)).1
      (Or.inl (by norm_num [probeObject])),
   (hit_test_strict_all_bounds 330 490 (probeObject 400 500)).2
      (by norm_num [probeObject]) (by norm_num [probeObject])
      (by norm_num [probeObject]) (by norm_num [probeObject])⟩

/-- C8: the effective spawn interval of `GameWorld.tsx` line 106 equals
`max(floor, base - score·decay)` with floor 200 and decay 3 per point, is
non-increasing as the score increases, is bounded below by the floor for
every tier, and in particular never falls below 200 ms at the medium
tier. -/
theorem spawn_interval_formula_monotone_floor (s : Settings) (a b : ℚ)
    (hab : a ≤ b) :
    spawnRate s a = max 200 (s.spawnRateBase - a * 3) ∧
    spawnRate s b ≤ spawnRate s a ∧
    200 ≤ spawnRate s a ∧
    200 ≤ spawnRate MEDIUM a := by
  refine ⟨rfl, ?_, le_max_left _ _, le_max_left _ _⟩
  exact max_le_max le_rfl (by linarith)

/-- Witness for C8 at the medium tier with scores 100 ≤ 300. -/
theorem spawn_interval_formula_monotone_floor_witness :
    (100 : ℚ) ≤ 300 ∧ spawnRate MEDIUM 300 ≤ spawnRate MEDIUM 100 ∧
    200 ≤ spawnRate MEDIUM 100 :=
  ⟨by norm_num,
   (spawn_interval_formula_monotone_floor MEDIUM 100 300 (by norm_num)).2.1,
   (spawn_interval_formula_monotone_floor MEDIUM 100 300 (by norm_num)).2.2.1⟩

/-- C7: while the qualifying-sample count stays at or below the threshold 8
(`if (count > 8)` in `VisionTracker.tsx` line 112), no filter update is
performed: every frame of the dropout reports the previous smoothed value
with `detected = false`, the estimator state is unchanged at the end, and
the processing function stays total (the simulation continues). -/
theorem dropout_holds_estimate (k : Kalman) (frames : List (ℕ × ℚ))
    (h : ∀ f ∈ frames, f.1 ≤ 8) :
    processFrames k frames = (k, frames.map fun _ => (k.x, false)) := by
  induction frames with
  | nil => rfl
  | cons f rest ih =>
    have hf : ¬ (8 < f.1) := not_lt.2 (h f (List.mem_cons_self f rest))
    have hr : ∀ g ∈ rest, g.1 ≤ 8 := fun g hg => h g (List.mem_cons_of_mem f hg)
    simp [processFrames, processFrame, hf, ih hr]

/-- Witness for C7: a two-frame dropout (counts 3 and 0) leaves the initial
estimator untouched and reports the held 0.5 with detected = false twice. -/
theorem dropout_holds_estimate_witness :
    (∀ f ∈ [((3 : ℕ), (10 : ℚ)), (0, 0)], f.1 ≤ 8) ∧
    processFrames kalmanX0 [(3, 10), (0, 0)]
      = (kalmanX0, [(kalmanX0.x, false), (kalmanX0.x, false)]) :=
  ⟨by norm_num,
   by simpa using dropout_holds_estimate kalmanX0 [(3, 10), (0, 0)] (by norm_num)⟩

lemma kalman_facts (k : Kalman) (z : ℚ) (hq : 0 < k.q) (hr : 0 < k.r)
    (hp : 0 < k.p) :
    0 < (kalmanUpdate k z).2 ∧ (kalmanUpdate k z).2 < 1 ∧
    0 < (kalmanUpdate k z).1.p ∧
    (kalmanUpdate k z).1.x - z = (1 - (kalmanUpdate k z).2) * (k.x - z) ∧
    (kalmanUpdate k z).1.x - k.x = (kalmanUpdate k z).2 * (z - k.x) ∧
    1 - (kalmanUpdate k z).2 ≤ k.r / (k.q + k.r) := by
  have hp1 : 0 < k.p + k.q := by linarith
  have hd : 0 < k.p + k.q + k.r := by linarith
  have hqr : 0 < k.q + k.r := by linarith
  simp only [kalmanUpdate]
  have hgpos : 0 < (k.p + k.q) / (k.p + k.q + k.r) := div_pos hp1 hd
  have hglt : (k.p + k.q) / (k.p + k.q + k.r) < 1 := (div_lt_one hd).2 (by linarith)
  refine ⟨hgpos, hglt, mul_pos (by linarith) hp1, by ring, by ring, ?_⟩
  have h1 : 1 - (k.p + k.q) / (k.p + k.q + k.r) = k.r / (k.p + k.q + k.r) := by
    field_simp
  rw [h1, div_le_div_iff₀ hd hqr]
  nlinarith

lemma kalmanIter_qr (z : ℚ) (k : Kalman) (n : ℕ) :
    (kalmanIter z k n).q = k.q ∧ (kalmanIter z k n).r = k.r := by
  induction n with
  | zero => exact ⟨rfl, rfl⟩
  | succ n ih => simpa [kalmanIter, kalmanUpdate] using ih

lemma kalmanIter_p_pos (z : ℚ) (k : Kalman) (hq : 0 < k.q) (hr : 0 < k.r)
    (hp : 0 < k.p) (n : ℕ) : 0 < (kalmanIter z k n).p := by
  induction n with
  | zero => exact hp
  | succ n ih =>
    obtain ⟨hqn, hrn⟩ := kalmanIter_qr z k n
    exact (kalman_facts (kalmanIter z k n) z (by rw [hqn]; exact hq)
      (by rw [hrn]; exact hr) ih).2.2.1

lemma kalman_geometric (k : Kalman) (z : ℚ) (hq : 0 < k.q) (hr : 0 < k.r)
    (hp : 0 < k.p) (n : ℕ) :
    |(kalmanIter z k n).x - z| ≤ (k.r / (k.q + k.r)) ^ n * |k.x - z| := by
  have hfac : 0 ≤ k.r / (k.q + k.r) := le_of_lt (div_pos hr (by linarith))
  induction n with
  | zero => simp [kalmanIter]
  | succ n ih =>
    obtain ⟨hqn, hrn⟩ := kalmanIter_qr z k n
    have hpn := kalmanIter_p_pos z k hq hr hp n
    have F := kalman_facts (kalmanIter z k n) z (by rw [hqn]; exact hq)
      (by rw [hrn]; exact hr) hpn
    have hg1 : 0 ≤ 1 - (kalmanUpdate (kalmanIter z k n) z).2 := by
      linarith [F.2.1]
    have hx : (kalmanIter z k (n + 1)).x - z
        = (1 - (kalmanUpdate (kalmanIter z k n) z).2)
          * ((kalmanIter z k n).x - z) := by
      simpa [kalmanIter] using F.2.2.2.1
    have hbound : 1 - (kalmanUpdate (kalmanIter z k n) z).2
        ≤ k.r / (k.q + k.r) := by
      have := F.2.2.2.2.2
      rwa [hqn, hrn] at this
    calc |(kalmanIter z k (n + 1)).x - z|
        = (1 - (kalmanUpdate (kalmanIter z k n) z).2)
          * |(kalmanIter z k n).x - z| := by
          rw [hx, abs_mul, abs_of_nonneg hg1]
      _ ≤ (k.r / (k.q + k.r)) * |(kalmanIter z k n).x - z| :=
          mul_le_mul_of_nonneg_right hbound (abs_nonneg _)
      _ ≤ (k.r / (k.q + k.r)) * ((k.r / (k.q + k.r)) ^ n * |k.x - z|) :=
          mul_le_mul_of_nonneg_left ih hfac
      _ = (k.r / (k.q + k.r)) ^ (n + 1) * |k.x - z| := by ring

/-- C6: for positive process and measurement noise, every update's gain
lies strictly in (0, 1); against a constant measurement z each new estimate
lies between the previous estimate and z (no overshoot, distance to z
non-increasing), and the distance to z is bounded by a geometric sequence
with ratio r/(q+r) < 1, so the estimate converges monotonically to z. -/
theorem kalman_gain_unit_no_overshoot_convergence (k : Kalman) (z : ℚ)
    (n : ℕ) (hq : 0 < k.q) (hr : 0 < k.r) (hp : 0 < k.p) :
    (0 < (kalmanUpdate (kalmanIter z k n) z).2 ∧
     (kalmanUpdate (kalmanIter z k n) z).2 < 1) ∧
    |(kalmanUpdate (kalmanIter z k n) z).1.x - z|
      ≤ |(kalmanIter z k n).x - z| ∧
    ((kalmanIter z k n).x ≤ z →
      (kalmanIter z k n).x ≤ (kalmanUpdate (kalmanIter z k n) z).1.x ∧
      (kalmanUpdate (kalmanIter z k n) z).1.x ≤ z) ∧
    (z ≤ (kalmanIter z k n).x →
      z ≤ (kalmanUpdate (kalmanIter z k n) z).1.x ∧
      (kalmanUpdate (kalmanIter z k n) z).1.x ≤ (kalmanIter z k n).x) ∧
    |(kalmanIter z k n).x - z| ≤ (k.r / (k.q + k.r)) ^ n * |k.x - z| := by
  obtain ⟨hqn, hrn⟩ := kalmanIter_qr z k n
  have hpn := kalmanIter_p_pos z k hq hr hp n
  have F := kalman_facts (kalmanIter z k n) z (by rw [hqn]; exact hq)
    (by rw [hrn]; exact hr) hpn
  obtain ⟨hg0, hg1, _, hxz, hxx, _⟩ := F
  refine ⟨⟨hg0, hg1⟩, ?_, ?_, ?_, kalman_geometric k z hq hr hp n⟩
  · rw [hxz, abs_mul, abs_of_nonneg (by linarith : (0:ℚ) ≤ 1 - (kalmanUpdate (kalmanIter z k n) z).2)]
    nlinarith [abs_nonneg ((kalmanIter z k n).x - z)]
  · intro hle
    constructor
    · nlinarith
    · nlinarith
  · intro hle
    constructor
    · nlinarith
    · nlinarith

/-- Witness for C6: the default estimator constants q = 0.08, r = 0.04 with
p = 1 > 0, measurement z = 1 and n = 1 satisfy the hypotheses, giving a
gain strictly inside (0, 1). -/
theorem kalman_gain_unit_no_overshoot_convergence_witness :
    (0 < kalmanX0.q ∧ 0 < kalmanX0.r ∧ 0 < kalmanX0.p) ∧
    (0 < (kalmanUpdate (kalmanIter 1 kalmanX0 1) 1).2 ∧
     (kalmanUpdate (kalmanIter 1 kalmanX0 1) 1).2 < 1) :=
  ⟨⟨by norm_num [kalmanX0], by norm_num [kalmanX0], by norm_num [kalmanX0]⟩,
   (kalman_gain_unit_no_overshoot_convergence kalmanX0 1 1
     (by norm_num [kalmanX0]) (by norm_num [kalmanX0])
     (by norm_num [kalmanX0])).1⟩

lemma tick_eq_stages (settings : Settings) (grav time now : ℚ)
    (rnd : SpawnRand) (e : Engine) :
    tick settings grav false time now rnd e =
      terminalCheck (difficultyStage now (collideStage settings
        (spawnStage settings (time - e.lastTime) rnd
          (motionStage grav (time - e.lastTime) { e with lastTime := time })))) :=
  rfl

lemma terminalCheck_fst (e : Engine) : (terminalCheck e).1 = e := by
  unfold terminalCheck
  split <;> rfl

/-- C3 counterexample: on a fresh EASY engine holding one object, a running
tick whose `Date.now()` reading is two minutes past `startTime` gives a
different result than the spec's stage order would: the code moves the
object with the stale difficulty 1 from the previous tick (y = 4), whereas
recomputing the difficulty at the start of the tick (as the spec claims)
would move it with difficulty 2 (y = 8). -/
theorem stage_order_spec_cex :
    tick EASY (gravityMult GameTheme.MIND_LAB) false (1667/100) 120000 rnd0
        orderDemoStart ≠
      specOrderTick EASY (gravityMult GameTheme.MIND_LAB) false (1667/100)
        120000 rnd0 orderDemoStart := by
  intro h
  have hobj := congrArg (fun r => (Prod.fst r).objects) h
  norm_num [tick, specOrderTick, orderDemoStart, initEngine, EASY, rnd0,
    gravityMult, motionStage, spawnStage, collideStage, difficultyStage,
    terminalCheck, spawnRate, resolveHits, hitTest, applyHit,
    spawnObject] at hobj

/-- C3 amended: on every RUNNING tick the pipeline stages execute in the
order Motion Updater, Spawner, Collision Resolver, Difficulty Controller,
and then the lives ≤ 0 termination check; the difficulty multiplier used by
the Motion Updater is the engine's stored one, i.e. the value computed at
the end of the previous tick, not one recomputed at the start of the
current tick. -/
theorem tick_stage_order_code (settings : Settings) (grav time now : ℚ)
    (rnd : SpawnRand) (e : Engine) :
    tick settings grav false time now rnd e =
      terminalCheck (difficultyStage now (collideStage settings
        (spawnStage settings (time - e.lastTime) rnd
          (motionStage grav (time - e.lastTime) { e with lastTime := time })))) ∧
    (motionStage grav (time - e.lastTime) { e with lastTime := time }).objects
      = (e.objects.map (fun obj =>
          { obj with y := obj.y + obj.speed
              * (min (time - e.lastTime) 32 / (1667 / 100)) * grav
              * e.difficulty })).filter (fun obj => obj.y < 650) :=
  ⟨tick_eq_stages settings grav time now rnd e, rfl⟩

/-- C4 counterexample: with URBAN_RAIN gravity 1.3, a difficulty multiplier
of 2 (score 500), a clamped 32 ms frame and an object of speed 7 starting
at y = 489 — strictly above the paddle band (490, 514) and horizontally
inside the paddle — one tick moves it to y = 873403/1667 ≈ 523.9, strictly
below the band, and the object survives with score and lives untouched: it
tunnelled through the paddle in a single tick despite the 32 ms clamp. -/
theorem tunneling_cex :
    (489 : ℚ) < 490 ∧
    (tick EASY (gravityMult GameTheme.URBAN_RAIN) false 32 0 rnd0
        tunnelDemoStart).1.objects
      = [{ x := 400, y := 873403/1667, radius := 20, speed := 7,
           type := ObjectType.GOOD }] ∧
    (514 : ℚ) < 873403/1667 ∧
    (tick EASY (gravityMult GameTheme.URBAN_RAIN) false 32 0 rnd0
        tunnelDemoStart).1.score = 500 ∧
    (tick EASY (gravityMult GameTheme.URBAN_RAIN) false 32 0 rnd0
        tunnelDemoStart).1.lives = 5 := by
  refine ⟨by norm_num, ?_, by norm_num, ?_, ?_⟩ <;>
    norm_num [tick, tunnelDemoStart, initEngine, EASY, rnd0, gravityMult,
      spawnRate, resolveHits, hitTest, applyHit, spawnObject]

/-- C4 amended: the per-tick motion step is exactly
`y ← y + speed · step · gravityMult · difficulty` with
`step = min(dt, 32)/16.67`, and the 32 ms clamp bounds the per-tick
displacement by `speed · (32/16.67) · gravityMult · difficulty`; this bound
can exceed the paddle band height 24 (it does already at speed 7, gravity
1.3, difficulty 2), so the clamp does not prevent an object from crossing
the whole band in one tick. -/
theorem motion_step_formula_and_bound (grav dt : ℚ) (e : Engine)
    (obj : GameObject) (hsp : 0 ≤ obj.speed) (hg : 0 ≤ grav)
    (hd : 0 ≤ e.difficulty) :
    (motionStage grav dt e).objects
      = (e.objects.map (fun o =>
          { o with y := o.y + o.speed * (min dt 32 / (1667 / 100)) * grav
              * e.difficulty })).filter (fun o => o.y < 650) ∧
    obj.speed * (min dt 32 / (1667 / 100)) * grav * e.difficulty
      ≤ obj.speed * (32 / (1667 / 100)) * grav * e.difficulty := by
  refine ⟨rfl, ?_⟩
  have hmin : min dt 32 ≤ 32 := min_le_right _ _
  have hstep : min dt 32 / (1667 / 100) ≤ 32 / (1667 / 100) := by
    apply div_le_div_of_nonneg_right hmin
    norm_num
  have h1 : obj.speed * (min dt 32 / (1667 / 100))
      ≤ obj.speed * (32 / (1667 / 100)) :=
    mul_le_mul_of_nonneg_left hstep hsp
  have h2 : obj.speed * (min dt 32 / (1667 / 100)) * grav
      ≤ obj.speed * (32 / (1667 / 100)) * grav :=
    mul_le_mul_of_nonneg_right h1 hg
  exact mul_le_mul_of_nonneg_right h2 hd

/-- Witness for the C4 amended theorem at the tunneling scenario's inputs:
speed 7, dt = 32, gravity 1.3, difficulty 2. -/
theorem motion_step_formula_and_bound_witness :
    ((0 : ℚ) ≤ 7 ∧ (0 : ℚ) ≤ 13/10 ∧ (0 : ℚ) ≤ (tunnelDemoStart).difficulty) ∧
    (7 : ℚ) * (min 32 32 / (1667 / 100)) * (13/10) * tunnelDemoStart.difficulty
      ≤ 7 * (32 / (1667 / 100)) * (13/10) * tunnelDemoStart.difficulty :=
  ⟨⟨by norm_num, by norm_num, by norm_num [tunnelDemoStart, initEngine]⟩,
   by
    have := (motion_step_formula_and_bound (13/10) 32 tunnelDemoStart
      { x := 400, y := 489, radius := 20, speed := 7, type := ObjectType.GOOD }
      (by norm_num) (by norm_num)
      (by norm_num [tunnelDemoStart, initEngine])).2
    exact this⟩

/-- C1 counterexample: starting from a fresh EASY engine whose last running
tick was at t = 100 ms, paused ticks at t = 200 and t = 1000 change nothing
(in particular `lastTime` stays 100), and the first running tick after
resuming, at t = 1100, advances `spawnTimer` by the full 1000 ms delta
since the pre-pause tick — a catch-up delta including the ≈ 900 ms paused
interval, not just the ≈ 100 ms since the last scheduled callback — and
sets the difficulty from the wall-clock `Date.now() - startTime = 1100`,
which also counts the paused interval.  The time reference is never reset
on resume. -/
theorem resume_catchup_delta_cex :
    tick EASY 1 true 200 200 rnd0 pauseDemoStart = (pauseDemoStart, none, true) ∧
    tick EASY 1 true 1000 1000 rnd0 pauseDemoStart
      = (pauseDemoStart, none, true) ∧
    (tick EASY 1 false 1100 1100 rnd0 pauseDemoStart).1.spawnTimer = 1000 ∧
    ¬ (tick EASY 1 false 1100 1100 rnd0 pauseDemoStart).1.spawnTimer ≤ 100 ∧
    (tick EASY 1 false 1100 1100 rnd0 pauseDemoStart).1.difficulty
      = 1 + 1100 / 120000 := by
  refine ⟨rfl, rfl, ?_, ?_, ?_⟩ <;>
    norm_num [tick, pauseDemoStart, initEngine, EASY, rnd0, spawnRate,
      resolveHits, hitTest, applyHit, spawnObject]

lemma motionStage_spawnTimer (grav dt : ℚ) (e : Engine) :
    (motionStage grav dt e).spawnTimer = e.spawnTimer := rfl

lemma spawnStage_lastTime (settings : Settings) (dt : ℚ) (rnd : SpawnRand)
    (e : Engine) : (spawnStage settings dt rnd e).lastTime = e.lastTime := by
  simp only [spawnStage]
  split <;> rfl

lemma spawnStage_startTime (settings : Settings) (dt : ℚ) (rnd : SpawnRand)
    (e : Engine) : (spawnStage settings dt rnd e).startTime = e.startTime := by
  simp only [spawnStage]
  split <;> rfl

lemma spawnStage_spawnTimer_of_no_trigger (settings : Settings) (dt : ℚ)
    (rnd : SpawnRand) (e : Engine)
    (h : ¬ spawnRate settings e.score < e.spawnTimer + dt) :
    (spawnStage settings dt rnd e).spawnTimer = e.spawnTimer + dt := by
  simp only [spawnStage]
  rw [if_neg h]

lemma collideStage_spawnTimer (settings : Settings) (e : Engine) :
    (collideStage settings e).spawnTimer = e.spawnTimer := rfl

lemma collideStage_lastTime (settings : Settings) (e : Engine) :
    (collideStage settings e).lastTime = e.lastTime := rfl

lemma collideStage_startTime (settings : Settings) (e : Engine) :
    (collideStage settings e).startTime = e.startTime := rfl

lemma difficultyStage_spawnTimer (now : ℚ) (e : Engine) :
    (difficultyStage now e).spawnTimer = e.spawnTimer := rfl

lemma difficultyStage_lastTime (now : ℚ) (e : Engine) :
    (difficultyStage now e).lastTime = e.lastTime := rfl

lemma difficultyStage_difficulty (now : ℚ) (e : Engine) :
    (difficultyStage now e).difficulty
      = 1 + e.score / 500 + (now - e.startTime) / 120000 := rfl

/-- C1 amended: a tick delivered while paused mutates no simulation state
and keeps scheduling; but the time reference is NOT reset on resume: a
running tick always applies the full delta `time - lastTime` since the last
running tick, so the first tick after resuming advances `spawnTimer` by a
delta that includes the whole paused interval (shown here when the spawn
threshold does not fire), and the difficulty computation uses the
wall-clock elapsed `now - startTime`, which also counts paused time.  Only
object motion is protected against the catch-up delta, by the 32 ms step
clamp. -/
theorem paused_tick_identity_and_resume_full_delta (settings : Settings)
    (grav time now : ℚ) (rnd : SpawnRand) (e : Engine)
    (hns : e.spawnTimer + (time - e.lastTime) ≤ spawnRate settings e.score) :
    tick settings grav true time now rnd e = (e, none, true) ∧
    (tick settings grav false time now rnd e).1.spawnTimer
      = e.spawnTimer + (time - e.lastTime) ∧
    (tick settings grav false time now rnd e).1.lastTime = time ∧
    (tick settings grav false time now rnd e).1.difficulty
      = 1 + (tick settings grav false time now rnd e).1.score / 500
          + (now - e.startTime) / 120000 := by
  refine ⟨rfl, ?_, ?_, ?_⟩ <;> rw [tick_eq_stages, terminalCheck_fst]
  · rw [difficultyStage_spawnTimer, collideStage_spawnTimer,
      spawnStage_spawnTimer_of_no_trigger]
    · rfl
    · exact not_lt.2 hns
  · rw [difficultyStage_lastTime, collideStage_lastTime, spawnStage_lastTime]
    rfl
  · rw [difficultyStage_difficulty, collideStage_startTime, spawnStage_startTime]
    rfl

/-- Witness for the C1 amended theorem: the resume scenario of the
counterexample satisfies the no-spawn hypothesis, and the resumed tick's
spawnTimer advance equals the full 1000 ms delta. -/
theorem paused_tick_identity_and_resume_full_delta_witness :
    (pauseDemoStart.spawnTimer + (1100 - pauseDemoStart.lastTime)
       ≤ spawnRate EASY pauseDemoStart.score) ∧
    (tick EASY 1 false 1100 1100 rnd0 pauseDemoStart).1.spawnTimer
      = pauseDemoStart.spawnTimer + (1100 - pauseDemoStart.lastTime) :=
  ⟨by norm_num [pauseDemoStart, initEngine, spawnRate, EASY],
   (paused_tick_identity_and_resume_full_delta EASY 1 1100 1100 rnd0
      pauseDemoStart
      (by norm_num [pauseDemoStart, initEngine, spawnRate, EASY])).2.1⟩

lemma applyHit_score_combo (settings : Settings) (acc : HitAcc)
    (obj : GameObject) (hc : 0 ≤ acc.combo) :
    acc.score ≤ (applyHit settings acc obj).score ∧
    0 ≤ (applyHit settings acc obj).combo := by
  unfold applyHit
  split
  · have hfl : (0 : ℚ) ≤ ((⌊acc.combo / 4⌋ : ℤ) : ℚ) := by
      have h4 : (0 : ℚ) ≤ acc.combo / 4 := by positivity
      exact_mod_cast Int.floor_nonneg.2 h4
    exact ⟨by dsimp only; linarith, by dsimp only; linarith⟩
  · exact ⟨le_refl _, le_refl _⟩

lemma resolveHits_score_mono (settings : Settings) (px py : ℚ)
    (objs : List GameObject) :
    ∀ acc : HitAcc, 0 ≤ acc.combo →
      acc.score ≤ (resolveHits settings px py acc objs).1.score ∧
      0 ≤ (resolveHits settings px py acc objs).1.combo := by
  induction objs with
  | nil => exact fun acc hc => ⟨le_refl _, hc⟩
  | cons obj rest ih =>
    intro acc hc
    by_cases h : hitTest px py obj = true
    · simp only [resolveHits, if_pos h]
      have ha := applyHit_score_combo settings acc obj hc
      have hrest := ih (applyHit settings acc obj) ha.2
      exact ⟨le_trans ha.1 hrest.1, hrest.2⟩
    · simp only [resolveHits, if_neg h]
      exact ih acc hc

lemma motionStage_score (grav dt : ℚ) (e : Engine) :
    (motionStage grav dt e).score = e.score := rfl

lemma motionStage_combo (grav dt : ℚ) (e : Engine) :
    (motionStage grav dt e).combo = e.combo := rfl

lemma spawnStage_score (settings : Settings) (dt : ℚ) (rnd : SpawnRand)
    (e : Engine) : (spawnStage settings dt rnd e).score = e.score := by
  simp only [spawnStage]
  split <;> rfl

lemma spawnStage_combo (settings : Settings) (dt : ℚ) (rnd : SpawnRand)
    (e : Engine) : (spawnStage settings dt rnd e).combo = e.combo := by
  simp only [spawnStage]
  split <;> rfl

lemma collideStage_score_mono (settings : Settings) (e : Engine)
    (hc : 0 ≤ e.combo) :
    e.score ≤ (collideStage settings e).score ∧
    0 ≤ (collideStage settings e).combo :=
  resolveHits_score_mono settings (e.handX * 800 - 140 / 2) (600 - 110)
    e.objects ⟨e.score, e.lives, e.combo⟩ hc

lemma difficultyStage_score (now : ℚ) (e : Engine) :
    (difficultyStage now e).score = e.score := rfl

lemma difficultyStage_combo (now : ℚ) (e : Engine) :
    (difficultyStage now e).combo = e.combo := rfl

lemma tick_score_mono (settings : Settings) (grav time now : ℚ)
    (paused : Bool) (rnd : SpawnRand) (e : Engine) (hc : 0 ≤ e.combo) :
    e.score ≤ (tick settings grav paused time now rnd e).1.score ∧
    0 ≤ (tick settings grav paused time now rnd e).1.combo := by
  cases paused
  · rw [tick_eq_stages, terminalCheck_fst]
    have hcm : 0 ≤ (spawnStage settings (time - e.lastTime) rnd
        (motionStage grav (time - e.lastTime) { e with lastTime := time })).combo := by
      rw [spawnStage_combo, motionStage_combo]
      exact hc
    have hcol := collideStage_score_mono settings
      (spawnStage settings (time - e.lastTime) rnd
        (motionStage grav (time - e.lastTime) { e with lastTime := time })) hcm
    rw [difficultyStage_score, difficultyStage_combo]
    refine ⟨?_, hcol.2⟩
    calc e.score
        = (spawnStage settings (time - e.lastTime) rnd
            (motionStage grav (time - e.lastTime)
              { e with lastTime := time })).score := by
          rw [spawnStage_score, motionStage_score]
      _ ≤ _ := hcol.1
  · exact ⟨le_refl _, hc⟩

/-- C10: the score starts at 0 and is monotonically non-decreasing across
the session: no tick — paused or running, whatever hits, misses or spawns
it contains — ever decreases it (given the invariant combo ≥ 0, which every
tick preserves); a GOOD hit adds exactly `5 + ⌊combo/4⌋`, a strictly
positive amount; a BAD hit subtracts the hazard penalty from lives and
resets the combo but leaves the score unchanged. -/
theorem score_monotone_session (settings : Settings) (start grav time now : ℚ)
    (paused : Bool) (rnd : SpawnRand) (e : Engine) (acc : HitAcc)
    (obj : GameObject) (hc : 0 ≤ e.combo) (hac : 0 ≤ acc.combo) :
    (initEngine settings start).score = 0 ∧
    e.score ≤ (tick settings grav paused time now rnd e).1.score ∧
    0 ≤ (tick settings grav paused time now rnd e).1.combo ∧
    (obj.type = ObjectType.GOOD →
      (applyHit settings acc obj).score
        = acc.score + 5 + ((⌊acc.combo / 4⌋ : ℤ) : ℚ) ∧
      0 < 5 + ((⌊acc.combo / 4⌋ : ℤ) : ℚ)) ∧
    (obj.type = ObjectType.BAD →
      (applyHit settings acc obj).score = acc.score ∧
      (applyHit settings acc obj).lives = acc.lives - settings.hazardPenalty ∧
      (applyHit settings acc obj).combo = 0) := by
  have hm := tick_score_mono settings grav time now paused rnd e hc
  refine ⟨rfl, hm.1, hm.2, ?_, ?_⟩
  · intro hg
    have hfl : (0 : ℚ) ≤ ((⌊acc.combo / 4⌋ : ℤ) : ℚ) := by
      have h4 : (0 : ℚ) ≤ acc.combo / 4 := by positivity
      exact_mod_cast Int.floor_nonneg.2 h4
    unfold applyHit
    rw [if_pos hg]
    exact ⟨rfl, by linarith⟩
  · intro hb
    have hng : ¬ obj.type = ObjectType.GOOD := by
      rw [hb]
      intro hcontr
      exact ObjectType.noConfusion hcontr
    unfold applyHit
    rw [if_neg hng]
    exact ⟨rfl, rfl, rfl⟩

/-- Witness for C10: a fresh EASY engine (combo 0) and a concrete
accumulator/object pair satisfy the hypotheses; the first running tick does
not decrease the score from 0. -/
theorem score_monotone_session_witness :
    ((0 : ℚ) ≤ (initEngine EASY 0).combo ∧
     (0 : ℚ) ≤ (⟨0, 5, 0⟩ : HitAcc).combo) ∧
    (initEngine EASY 0).score
      ≤ (tick EASY 1 false 16 0 rnd0 (initEngine EASY 0)).1.score :=
  ⟨⟨by norm_num [initEngine], by norm_num⟩,
   (score_monotone_session EASY 0 1 16 0 false rnd0 (initEngine EASY 0)
      ⟨0, 5, 0⟩ (probeObject 400 500) (by norm_num [initEngine])
      (by norm_num)).2.1⟩

lemma bad_ne_good : (ObjectType.BAD = ObjectType.GOOD) = False := by
  simp

lemma c9_t1 (s c : ℚ) : c9r1 s c = (c9state s 1 (1/8), none, true) := by
  norm_num [c9r1, tick, fiveBadStart, c9state, badObj, EASY, rnd0, spawnRate,
    resolveHits, hitTest, applyHit, spawnObject, max_lt_iff, bad_ne_good,
    Engine.mk.injEq]

lemma c9_t2 (s c : ℚ) : c9r2 s c = (c9state s 2 (13/40), none, true) := by
  rw [c9r2, c9_t1]
  norm_num [tick, c9state, badObj, EASY, rnd0, spawnRate, resolveHits,
    hitTest, applyHit, spawnObject, max_lt_iff, bad_ne_good, Engine.mk.injEq]

lemma c9_t3 (s c : ℚ) : c9r3 s c = (c9state s 3 (21/40), none, true) := by
  rw [c9r3, c9_t2]
  norm_num [tick, c9state, badObj, EASY, rnd0, spawnRate, resolveHits,
    hitTest, applyHit, spawnObject, max_lt_iff, bad_ne_good, Engine.mk.injEq]

lemma c9_t4 (s c : ℚ) : c9r4 s c = (c9state s 4 (29/40), none, true) := by
  rw [c9r4, c9_t3]
  norm_num [tick, c9state, badObj, EASY, rnd0, spawnRate, resolveHits,
    hitTest, applyHit, spawnObject, max_lt_iff, bad_ne_good, Engine.mk.injEq]

lemma c9_t5 (s c : ℚ) : c9r5 s c = (c9state s 5 (37/40), some ⌊s⌋, false) := by
  rw [c9r5, c9_t4]
  norm_num [tick, c9state, badObj, EASY, rnd0, spawnRate, resolveHits,
    hitTest, applyHit, spawnObject, max_lt_iff, bad_ne_good, Engine.mk.injEq]

/-- C9: starting from lives = 5 and hazard penalty 1 (EASY tier) with any
initial score s and combo c, five consecutive ticks each landing exactly
one BAD hit and no GOOD hit drive the lives through 4, 3, 2, 1 to 0; the
first four ticks emit no event and keep scheduling, and the fifth tick
emits exactly one terminal event whose payload is ⌊s⌋ — the floor of the
score accumulated up to the fifth hit, unchanged by BAD hits — and
schedules no further tick. -/
theorem five_bad_hits_single_terminal (s c : ℚ) :
    (c9r1 s c).2 = (none, true) ∧ (c9r1 s c).1.lives = 4 ∧
    (c9r2 s c).2 = (none, true) ∧ (c9r2 s c).1.lives = 3 ∧
    (c9r3 s c).2 = (none, true) ∧ (c9r3 s c).1.lives = 2 ∧
    (c9r4 s c).2 = (none, true) ∧ (c9r4 s c).1.lives = 1 ∧
    (c9r5 s c).1.lives = 0 ∧ (c9r5 s c).1.score = s ∧
    (c9r5 s c).2 = (some ⌊s⌋, false) := by
  rw [c9_t1, c9_t2, c9_t3, c9_t4, c9_t5]
  norm_num [c9state]
